import Mathlib

/-!
Verification of the ssh-agent client session layer (src/client.rs).

The client wraps a duplex byte stream in a codec adapter (a `Framed` stream of
decoded `Response` values and sink of `Request` values) and exposes the agent
operations as typed calls.  We embed the adapter as an explicit `Channel`
state: a script of outcomes for successive send operations, a script of events
produced by successive read attempts, and the list of requests successfully
written.  Each operation of the `Session` impl becomes a state-passing
function `Channel → result × Channel`, translated clause by clause from the
source.
-/

set_option autoImplicit false

namespace SshAgentClient

/-- Opaque identity payload (public key plus metadata); the protocol
taxonomy is out of scope, so it is modelled as an opaque wrapper. -/
structure Identity where
  val : Nat
  deriving DecidableEq, Repr

/-- Opaque signing-request payload. -/
structure SignRequest where
  val : Nat
  deriving DecidableEq, Repr

/-- Opaque signature payload. -/
structure Signature where
  val : Nat
  deriving DecidableEq, Repr

/-- Opaque add-identity payload. -/
structure AddIdentity where
  val : Nat
  deriving DecidableEq, Repr

/-- Opaque constrained add-identity payload. -/
structure AddIdentityConstrained where
  val : Nat
  deriving DecidableEq, Repr

/-- Opaque remove-identity payload. -/
structure RemoveIdentity where
  val : Nat
  deriving DecidableEq, Repr

/-- Opaque smartcard-key payload. -/
structure SmartcardKey where
  val : Nat
  deriving DecidableEq, Repr

/-- Opaque constrained smartcard-key payload. -/
structure AddSmartcardKeyConstrained where
  val : Nat
  deriving DecidableEq, Repr

/-- Opaque vendor-extension payload. -/
structure Extension where
  val : Nat
  deriving DecidableEq, Repr

/-- Request variants, exactly those constructed in src/client.rs. -/
inductive Request where
  | RequestIdentities
  | SignRequest (r : SignRequest)
  | AddIdentity (i : AddIdentity)
  | AddIdConstrained (i : AddIdentityConstrained)
  | RemoveIdentity (i : RemoveIdentity)
  | RemoveAllIdentities
  | AddSmartcardKey (k : SmartcardKey)
  | AddSmartcardKeyConstrained (k : AddSmartcardKeyConstrained)
  | RemoveSmartcardKey (k : SmartcardKey)
  | Lock (passphrase : String)
  | Unlock (passphrase : String)
  | Extension (e : Extension)
  deriving DecidableEq, Repr

/-- Response outcome variants named by the spec (section 3) and matched in
src/client.rs: Success, IdentitiesAnswer, SignResponse, ExtensionResponse. -/
inductive Response where
  | Success
  | IdentitiesAnswer (ids : List Identity)
  | SignResponse (sig : Signature)
  | ExtensionResponse (e : Extension)
  deriving DecidableEq, Repr

/-- Protocol errors surfaced by src/client.rs: the UnexpectedResponse
variant, and the IO variant carrying an OS-error message (ProtoError is
declared outside src/; these are the variants the client constructs, plus a
decode-failure shape for errors produced by the codec). -/
inductive ProtoError where
  | UnexpectedResponse
  | ioError (msg : String)
  | decodeFailure (detail : Nat)
  deriving DecidableEq, Repr

/-- Agent-level error: every error src/client.rs produces is a ProtoError
converted via From (the .into() calls), so the client-visible errors are the
Proto-wrapped ones. -/
inductive AgentError where
  | Proto (e : ProtoError)
  deriving DecidableEq, Repr

/-- Whether an agent error is IO-classified (wraps the ProtoError IO
variant), as a transport read/write fault is. -/
def AgentError.ioClassified : AgentError → Bool
  | .Proto (.ioError _) => true
  | _ => false

/-- One event produced by a read attempt on the framed adapter: a decoded
response, or a codec/transport failure.  An exhausted script models
end-of-stream. -/
inductive ReadEvent where
  | response (r : Response)
  | readFailure (e : ProtoError)
  deriving DecidableEq, Repr

/-- State of the framed adapter: the outcome of each successive send (an
exhausted script means every further send succeeds), the events produced by
successive read attempts (an exhausted script means end-of-stream), and the
requests successfully encoded and written so far. -/
structure Channel where
  sendScript : List (Option ProtoError)
  readScript : List ReadEvent
  written : List Request
  deriving DecidableEq, Repr

/-- A fresh channel with given send and read scripts and nothing written. -/
def mkChannel (s : List (Option ProtoError)) (r : List ReadEvent) : Channel :=
  { sendScript := s, readScript := r, written := [] }

/-- The adapter send: encode and write one request.  On success the request
is appended to the written log; on failure nothing is written. -/
def send (m : Request) (c : Channel) : Option ProtoError × Channel :=
  match c.sendScript with
  | [] => (none, { c with written := c.written ++ [m] })
  | none :: rest =>
      (none, { c with sendScript := rest, written := c.written ++ [m] })
  | some e :: rest => (some e, { c with sendScript := rest })

/-- The adapter try_next: attempt to decode one response.  Yields a decoded
response, an error, or none at end-of-stream; consumes exactly one scripted
event when one is available. -/
def tryNext (c : Channel) : Except ProtoError (Option Response) × Channel :=
  match c.readScript with
  | [] => (Except.ok none, c)
  | ReadEvent.response r :: rest =>
      (Except.ok (some r), { c with readScript := rest })
  | ReadEvent.readFailure e :: rest =>
      (Except.error e, { c with readScript := rest })

/-- The shared send-then-await primitive (fn handle, src/client.rs lines
193-200): send the request, propagating a send failure; then await one
response, propagating a read failure; a decoded response is returned, and
end-of-stream yields the IO error with message "server disconnected". -/
def handle (message : Request) (c : Channel) : Except AgentError Response × Channel :=
  match send message c with
  | (some e, c1) => (Except.error (AgentError.Proto e), c1)
  | (none, c1) =>
      match tryNext c1 with
      | (Except.error e, c2) => (Except.error (AgentError.Proto e), c2)
      | (Except.ok (some response), c2) => (Except.ok response, c2)
      | (Except.ok none, c2) =>
          (Except.error (AgentError.Proto (ProtoError.ioError "server disconnected")), c2)

/-- fn request_identities: expects IdentitiesAnswer, else UnexpectedResponse. -/
def request_identities (c : Channel) : Except AgentError (List Identity) × Channel :=
  match handle Request.RequestIdentities c with
  | (Except.error e, c1) => (Except.error e, c1)
  | (Except.ok (Response.IdentitiesAnswer identities), c1) => (Except.ok identities, c1)
  | (Except.ok _, c1) => (Except.error (AgentError.Proto ProtoError.UnexpectedResponse), c1)

/-- fn sign: expects SignResponse, else UnexpectedResponse. -/
def sign (request : SignRequest) (c : Channel) : Except AgentError Signature × Channel :=
  match handle (Request.SignRequest request) c with
  | (Except.error e, c1) => (Except.error e, c1)
  | (Except.ok (Response.SignResponse response), c1) => (Except.ok response, c1)
  | (Except.ok _, c1) => (Except.error (AgentError.Proto ProtoError.UnexpectedResponse), c1)

/-- fn add_identity: expects Success, else UnexpectedResponse. -/
def add_identity (identity : AddIdentity) (c : Channel) : Except AgentError Unit × Channel :=
  match handle (Request.AddIdentity identity) c with
  | (Except.error e, c1) => (Except.error e, c1)
  | (Except.ok Response.Success, c1) => (Except.ok (), c1)
  | (Except.ok _, c1) => (Except.error (AgentError.Proto ProtoError.UnexpectedResponse), c1)

/-- fn add_identity_constrained: expects Success, else UnexpectedResponse. -/
def add_identity_constrained (identity : AddIdentityConstrained) (c : Channel) :
    Except AgentError Unit × Channel :=
  match handle (Request.AddIdConstrained identity) c with
  | (Except.error e, c1) => (Except.error e, c1)
  | (Except.ok Response.Success, c1) => (Except.ok (), c1)
  | (Except.ok _, c1) => (Except.error (AgentError.Proto ProtoError.UnexpectedResponse), c1)

/-- fn remove_identity: expects Success, else UnexpectedResponse. -/
def remove_identity (identity : RemoveIdentity) (c : Channel) :
    Except AgentError Unit × Channel :=
  match handle (Request.RemoveIdentity identity) c with
  | (Except.error e, c1) => (Except.error e, c1)
  | (Except.ok Response.Success, c1) => (Except.ok (), c1)
  | (Except.ok _, c1) => (Except.error (AgentError.Proto ProtoError.UnexpectedResponse), c1)

/-- fn remove_all_identities: expects Success, else UnexpectedResponse. -/
def remove_all_identities (c : Channel) : Except AgentError Unit × Channel :=
  match handle Request.RemoveAllIdentities c with
  | (Except.error e, c1) => (Except.error e, c1)
  | (Except.ok Response.Success, c1) => (Except.ok (), c1)
  | (Except.ok _, c1) => (Except.error (AgentError.Proto ProtoError.UnexpectedResponse), c1)

/-- fn add_smartcard_key: expects Success, else UnexpectedResponse. -/
def add_smartcard_key (key : SmartcardKey) (c : Channel) :
    Except AgentError Unit × Channel :=
  match handle (Request.AddSmartcardKey key) c with
  | (Except.error e, c1) => (Except.error e, c1)
  | (Except.ok Response.Success, c1) => (Except.ok (), c1)
  | (Except.ok _, c1) => (Except.error (AgentError.Proto ProtoError.UnexpectedResponse), c1)

/-- fn add_smartcard_key_constrained: expects Success, else
UnexpectedResponse. -/
def add_smartcard_key_constrained (key : AddSmartcardKeyConstrained) (c : Channel) :
    Except AgentError Unit × Channel :=
  match handle (Request.AddSmartcardKeyConstrained key) c with
  | (Except.error e, c1) => (Except.error e, c1)
  | (Except.ok Response.Success, c1) => (Except.ok (), c1)
  | (Except.ok _, c1) => (Except.error (AgentError.Proto ProtoError.UnexpectedResponse), c1)

/-- fn remove_smartcard_key: expects Success, else UnexpectedResponse. -/
def remove_smartcard_key (key : SmartcardKey) (c : Channel) :
    Except AgentError Unit × Channel :=
  match handle (Request.RemoveSmartcardKey key) c with
  | (Except.error e, c1) => (Except.error e, c1)
  | (Except.ok Response.Success, c1) => (Except.ok (), c1)
  | (Except.ok _, c1) => (Except.error (AgentError.Proto ProtoError.UnexpectedResponse), c1)

/-- fn lock: expects Success, else UnexpectedResponse. -/
def lock (key : String) (c : Channel) : Except AgentError Unit × Channel :=
  match handle (Request.Lock key) c with
  | (Except.error e, c1) => (Except.error e, c1)
  | (Except.ok Response.Success, c1) => (Except.ok (), c1)
  | (Except.ok _, c1) => (Except.error (AgentError.Proto ProtoError.UnexpectedResponse), c1)

/-- fn unlock: expects Success, else UnexpectedResponse. -/
def unlock (key : String) (c : Channel) : Except AgentError Unit × Channel :=
  match handle (Request.Unlock key) c with
  | (Except.error e, c1) => (Except.error e, c1)
  | (Except.ok Response.Success, c1) => (Except.ok (), c1)
  | (Except.ok _, c1) => (Except.error (AgentError.Proto ProtoError.UnexpectedResponse), c1)

/-- fn extension: Success yields no payload, ExtensionResponse yields the
payload, anything else UnexpectedResponse. -/
def extension (e : Extension) (c : Channel) :
    Except AgentError (Option Extension) × Channel :=
  match handle (Request.Extension e) c with
  | (Except.error err, c1) => (Except.error err, c1)
  | (Except.ok Response.Success, c1) => (Except.ok none, c1)
  | (Except.ok (Response.ExtensionResponse response), c1) => (Except.ok (some response), c1)
  | (Except.ok _, c1) => (Except.error (AgentError.Proto ProtoError.UnexpectedResponse), c1)

/-- One operation call of the Session impl with its typed argument; one
constructor per async operation method of src/client.rs. -/
inductive OpCall where
  | requestIdentities
  | signOp (r : SignRequest)
  | addIdentityOp (i : AddIdentity)
  | addIdentityConstrainedOp (i : AddIdentityConstrained)
  | removeIdentityOp (i : RemoveIdentity)
  | removeAllIdentitiesOp
  | addSmartcardKeyOp (k : SmartcardKey)
  | addSmartcardKeyConstrainedOp (k : AddSmartcardKeyConstrained)
  | removeSmartcardKeyOp (k : SmartcardKey)
  | lockOp (passphrase : String)
  | unlockOp (passphrase : String)
  | extensionOp (e : Extension)
  deriving DecidableEq, Repr

/-- The typed success result of an operation, in one sum so all operations
can be run uniformly. -/
inductive OpResult where
  | unitResult
  | identities (ids : List Identity)
  | signature (s : Signature)
  | extensionResult (p : Option Extension)
  deriving DecidableEq, Repr

/-- Run one operation method on the channel, injecting its typed result
into OpResult.  Each arm calls the method definition translated from the
source; this function adds no behaviour of its own. -/
def runOp : OpCall → Channel → Except AgentError OpResult × Channel
  | OpCall.requestIdentities, c =>
      let p := request_identities c
      (p.1.map OpResult.identities, p.2)
  | OpCall.signOp r, c =>
      let p := sign r c
      (p.1.map OpResult.signature, p.2)
  | OpCall.addIdentityOp i, c =>
      let p := add_identity i c
      (p.1.map fun _ => OpResult.unitResult, p.2)
  | OpCall.addIdentityConstrainedOp i, c =>
      let p := add_identity_constrained i c
      (p.1.map fun _ => OpResult.unitResult, p.2)
  | OpCall.removeIdentityOp i, c =>
      let p := remove_identity i c
      (p.1.map fun _ => OpResult.unitResult, p.2)
  | OpCall.removeAllIdentitiesOp, c =>
      let p := remove_all_identities c
      (p.1.map fun _ => OpResult.unitResult, p.2)
  | OpCall.addSmartcardKeyOp k, c =>
      let p := add_smartcard_key k c
      (p.1.map fun _ => OpResult.unitResult, p.2)
  | OpCall.addSmartcardKeyConstrainedOp k, c =>
      let p := add_smartcard_key_constrained k c
      (p.1.map fun _ => OpResult.unitResult, p.2)
  | OpCall.removeSmartcardKeyOp k, c =>
      let p := remove_smartcard_key k c
      (p.1.map fun _ => OpResult.unitResult, p.2)
  | OpCall.lockOp s, c =>
      let p := lock s c
      (p.1.map fun _ => OpResult.unitResult, p.2)
  | OpCall.unlockOp s, c =>
      let p := unlock s c
      (p.1.map fun _ => OpResult.unitResult, p.2)
  | OpCall.extensionOp e, c =>
      let p := extension e c
      (p.1.map OpResult.extensionResult, p.2)

/-- The Request value each operation method constructs from its arguments
(the per-call-site Request construction in src/client.rs). -/
def OpCall.request : OpCall → Request
  | OpCall.requestIdentities => Request.RequestIdentities
  | OpCall.signOp r => Request.SignRequest r
  | OpCall.addIdentityOp i => Request.AddIdentity i
  | OpCall.addIdentityConstrainedOp i => Request.AddIdConstrained i
  | OpCall.removeIdentityOp i => Request.RemoveIdentity i
  | OpCall.removeAllIdentitiesOp => Request.RemoveAllIdentities
  | OpCall.addSmartcardKeyOp k => Request.AddSmartcardKey k
  | OpCall.addSmartcardKeyConstrainedOp k => Request.AddSmartcardKeyConstrained k
  | OpCall.removeSmartcardKeyOp k => Request.RemoveSmartcardKey k
  | OpCall.lockOp s => Request.Lock s
  | OpCall.unlockOp s => Request.Unlock s
  | OpCall.extensionOp e => Request.Extension e

/-- Whether the call is the extension operation (the one with a two-variant
acceptance set). -/
def OpCall.isExtensionCall : OpCall → Bool
  | OpCall.extensionOp _ => true
  | _ => false

/-- The expected success variant per operation as the spec states it:
IdentitiesAnswer for list identities, SignResponse for sign, Success for
every mutating operation, and for extension either Success or
ExtensionResponse. -/
def isExpectedSuccess : OpCall → Response → Bool
  | OpCall.requestIdentities, Response.IdentitiesAnswer _ => true
  | OpCall.signOp _, Response.SignResponse _ => true
  | OpCall.extensionOp _, Response.Success => true
  | OpCall.extensionOp _, Response.ExtensionResponse _ => true
  | OpCall.addIdentityOp _, Response.Success => true
  | OpCall.addIdentityConstrainedOp _, Response.Success => true
  | OpCall.removeIdentityOp _, Response.Success => true
  | OpCall.removeAllIdentitiesOp, Response.Success => true
  | OpCall.addSmartcardKeyOp _, Response.Success => true
  | OpCall.addSmartcardKeyConstrainedOp _, Response.Success => true
  | OpCall.removeSmartcardKeyOp _, Response.Success => true
  | OpCall.lockOp _, Response.Success => true
  | OpCall.unlockOp _, Response.Success => true
  | _, _ => false

/-- The canonical success reply for an operation, parameterized by the
payloads the peer would supply (used to state the success round-trip
property; extension is exercised with the bare Success reply here). -/
def successResp (op : OpCall) (ids : List Identity) (sg : Signature) : Response :=
  match op with
  | OpCall.requestIdentities => Response.IdentitiesAnswer ids
  | OpCall.signOp _ => Response.SignResponse sg
  | _ => Response.Success

/-- The typed result the operation must then return: the peer-supplied
identity list, the peer-supplied signature, the unit value for mutating
operations, and no payload for extension answered with bare Success. -/
def successResult (op : OpCall) (ids : List Identity) (sg : Signature) : OpResult :=
  match op with
  | OpCall.requestIdentities => OpResult.identities ids
  | OpCall.signOp _ => OpResult.signature sg
  | OpCall.extensionOp _ => OpResult.extensionResult none
  | _ => OpResult.unitResult

/-- Constructor index of an operation call, used to enumerate the
operation surface. -/
def OpCall.tag : OpCall → Nat
  | OpCall.requestIdentities => 0
  | OpCall.signOp _ => 1
  | OpCall.addIdentityOp _ => 2
  | OpCall.addIdentityConstrainedOp _ => 3
  | OpCall.removeIdentityOp _ => 4
  | OpCall.removeAllIdentitiesOp => 5
  | OpCall.addSmartcardKeyOp _ => 6
  | OpCall.addSmartcardKeyConstrainedOp _ => 7
  | OpCall.removeSmartcardKeyOp _ => 8
  | OpCall.lockOp _ => 9
  | OpCall.unlockOp _ => 10
  | OpCall.extensionOp _ => 11

/-- One representative call per operation method of the Session impl in
src/client.rs, in source order. -/
def allOpReps : List OpCall :=
  [OpCall.requestIdentities, OpCall.signOp ⟨0⟩, OpCall.addIdentityOp ⟨0⟩,
   OpCall.addIdentityConstrainedOp ⟨0⟩, OpCall.removeIdentityOp ⟨0⟩,
   OpCall.removeAllIdentitiesOp, OpCall.addSmartcardKeyOp ⟨0⟩,
   OpCall.addSmartcardKeyConstrainedOp ⟨0⟩, OpCall.removeSmartcardKeyOp ⟨0⟩,
   OpCall.lockOp "", OpCall.unlockOp "", OpCall.extensionOp ⟨0⟩]

/-- The pipe-busy OS error code the retry loop checks for
(ERROR_PIPE_BUSY in src/client.rs). -/
def ERROR_PIPE_BUSY : Nat := 231

/-- The fixed inter-attempt delay of the retry loop, in milliseconds
(the sleep in src/client.rs line 68). -/
def retrySleepMillis : Nat := 50

/-- The Windows named-pipe connect loop (src/client.rs lines 56-69) run
against a script of open-attempt outcomes (each Except.ok is an opened
client handle, each Except.error a raw OS error code).  Returns the loop
outcome and the number of sleeps (retries) performed; none if the script is
exhausted while the loop would still be running. -/
def connectNamedPipeWindows : List (Except Nat Nat) → Option (Except Nat Nat × Nat)
  | [] => none
  | Except.ok client :: _ => some (Except.ok client, 0)
  | Except.error e :: rest =>
      if e = ERROR_PIPE_BUSY then
        (connectNamedPipeWindows rest).map fun p => (p.1, p.2 + 1)
      else
        some (Except.error e, 0)

/-- The transport descriptor handed to connect (service_binding::Stream):
an already-accepted unix or tcp stream handle, or a named-pipe path. -/
inductive ServiceBindingStream where
  | unixStream (fd : Nat)
  | tcpStream (fd : Nat)
  | namedPipe (path : String)
  deriving DecidableEq, Repr

/-- fn connect compiled for a non-Windows target (src/client.rs lines
43-52 and 72-77): unix and tcp streams are wrapped into a client (one OS
stream-registration operation, counted by the second component), and a
named pipe fails at once with the IO error, performing no OS operation. -/
def connectNonWindows : ServiceBindingStream → Except ProtoError Nat × Nat
  | ServiceBindingStream.unixStream fd => (Except.ok fd, 1)
  | ServiceBindingStream.tcpStream fd => (Except.ok fd, 1)
  | ServiceBindingStream.namedPipe _ =>
      (Except.error (ProtoError.ioError "Named pipes supported on Windows only"), 0)

/-- C6: request_identities returns exactly the identity list the peer
answered with, in peer order, neither resorted, filtered, nor
deduplicated (including the empty list). -/
theorem identities_preserved (ids : List Identity) :
    (request_identities
        (mkChannel [] [ReadEvent.response (Response.IdentitiesAnswer ids)])).1 =
      Except.ok ids := rfl

/-- C1: for every operation other than extension, a decoded response of any
variant other than the single expected success variant for that operation
makes the call return the UnexpectedResponse error. -/
theorem unexpected_response_rejected (op : OpCall) (r : Response)
    (hext : op.isExtensionCall = false) (hexp : isExpectedSuccess op r = false) :
    (runOp op (mkChannel [] [ReadEvent.response r])).1 =
      Except.error (AgentError.Proto ProtoError.UnexpectedResponse) := by
  cases op <;> cases r <;>
    simp_all [runOp, request_identities, sign, add_identity, add_identity_constrained,
      remove_identity, remove_all_identities, add_smartcard_key,
      add_smartcard_key_constrained, remove_smartcard_key, lock, unlock, extension,
      handle, send, tryNext, mkChannel, isExpectedSuccess, OpCall.isExtensionCall,
      Except.map]

/-- Witness for C1 at the lock operation fed an IdentitiesAnswer reply. -/
theorem unexpected_response_rejected_witness :
    OpCall.isExtensionCall (OpCall.lockOp "p") = false ∧
    isExpectedSuccess (OpCall.lockOp "p") (Response.IdentitiesAnswer []) = false ∧
    (runOp (OpCall.lockOp "p")
        (mkChannel [] [ReadEvent.response (Response.IdentitiesAnswer [])])).1 =
      Except.error (AgentError.Proto ProtoError.UnexpectedResponse) :=
  ⟨rfl, rfl,
    unexpected_response_rejected (OpCall.lockOp "p") (Response.IdentitiesAnswer []) rfl rfl⟩

/-- C2: the extension operation returns no payload on a bare Success reply,
the payload on an ExtensionResponse reply, and the UnexpectedResponse error
on every other reply variant. -/
theorem extension_reply_classification (e : Extension) (r : Response)
    (h : r ≠ Response.Success ∧ ∀ p : Extension, r ≠ Response.ExtensionResponse p) :
    (extension e (mkChannel [] [ReadEvent.response Response.Success])).1 =
      Except.ok none ∧
    (∀ p : Extension,
      (extension e (mkChannel [] [ReadEvent.response (Response.ExtensionResponse p)])).1 =
        Except.ok (some p)) ∧
    (extension e (mkChannel [] [ReadEvent.response r])).1 =
      Except.error (AgentError.Proto ProtoError.UnexpectedResponse) := by
  obtain ⟨h1, h2⟩ := h
  refine ⟨rfl, fun p => rfl, ?_⟩
  cases r with
  | Success => exact absurd rfl h1
  | ExtensionResponse p => exact absurd rfl (h2 p)
  | IdentitiesAnswer ids => rfl
  | SignResponse s => rfl

/-- Witness for C2 with an IdentitiesAnswer reply to an extension request. -/
theorem extension_reply_classification_witness :
    (Response.IdentitiesAnswer [] ≠ Response.Success ∧
      ∀ p : Extension, Response.IdentitiesAnswer [] ≠ Response.ExtensionResponse p) ∧
    (extension ⟨0⟩ (mkChannel [] [ReadEvent.response (Response.IdentitiesAnswer [])])).1 =
      Except.error (AgentError.Proto ProtoError.UnexpectedResponse) :=
  ⟨⟨fun hc => Response.noConfusion hc, fun _p hc => Response.noConfusion hc⟩,
    (extension_reply_classification ⟨0⟩ (Response.IdentitiesAnswer [])
      ⟨fun hc => Response.noConfusion hc, fun _p hc => Response.noConfusion hc⟩).2.2⟩

/-- C3 counterexample: on end-of-stream before any response, the error the
call returns is the Proto-wrapped IO error with message "server
disconnected" — it is IO-classified, not a classification distinct from IO
errors as the claim states. -/
theorem disconnect_is_io_classified :
    (request_identities (mkChannel [] [])).1 =
      Except.error (AgentError.Proto (ProtoError.ioError "server disconnected")) ∧
    AgentError.ioClassified
      (AgentError.Proto (ProtoError.ioError "server disconnected")) = true :=
  ⟨rfl, rfl⟩

/-- C3 amended: for every operation, end-of-stream after the request was
written makes the call fail with the IO-classified error carrying the
message "server disconnected"; the disconnect is distinguished from other
IO faults only by that message, not by a distinct error variant. -/
theorem disconnect_error_message (op : OpCall) :
    (runOp op (mkChannel [] [])).1 =
      Except.error (AgentError.Proto (ProtoError.ioError "server disconnected")) ∧
    (runOp op (mkChannel [] [])).2.written = [op.request] := by
  cases op <;> exact ⟨rfl, rfl⟩

/-- C5: on a non-Windows target, connect with a named-pipe descriptor
fails immediately with the descriptive unsupported-transport IO error and
performs no OS connection operation. -/
theorem named_pipe_unsupported_nonwindows (p : String) :
    connectNonWindows (ServiceBindingStream.namedPipe p) =
      (Except.error (ProtoError.ioError "Named pipes supported on Windows only"), 0) := rfl

/-- C4: the named-pipe connect loop succeeds after exactly N retries (each
preceded by the fixed 50 ms sleep) when the first N open attempts fail with
the pipe-busy code and attempt N+1 succeeds, for every N; and it fails
immediately with no retry on any other OS error. -/
theorem named_pipe_retry (n : Nat) (h : Nat) (e : Nat) (rest : List (Except Nat Nat))
    (he : e ≠ ERROR_PIPE_BUSY) :
    connectNamedPipeWindows
        (List.replicate n (Except.error ERROR_PIPE_BUSY) ++ [Except.ok h]) =
      some (Except.ok h, n) ∧
    connectNamedPipeWindows (Except.error e :: rest) = some (Except.error e, 0) ∧
    retrySleepMillis = 50 := by
  refine ⟨?_, ?_, rfl⟩
  · induction n with
    | zero => rfl
    | succ k ih => simp [List.replicate_succ, connectNamedPipeWindows, ih]
  · simp [connectNamedPipeWindows, he]

/-- Witness for C4 with two busy rejections then success, and the OS error
code 5 aborting at once. -/
theorem named_pipe_retry_witness :
    (5 : Nat) ≠ ERROR_PIPE_BUSY ∧
    connectNamedPipeWindows
        (List.replicate 2 (Except.error ERROR_PIPE_BUSY) ++ [Except.ok 7]) =
      some (Except.ok 7, 2) ∧
    connectNamedPipeWindows (Except.error 5 :: []) = some (Except.error 5, 0) :=
  ⟨by decide, (named_pipe_retry 2 7 5 [] (by decide)).1,
    (named_pipe_retry 2 7 5 [] (by decide)).2.1⟩

/-- C7 counterexample: the Session impl exposes twelve operations (one per
constructor of OpCall, enumerated by allOpReps with distinct tags 0-11),
not fourteen as the claim states. -/
theorem operation_count_twelve :
    allOpReps.map OpCall.tag = List.range 12 ∧
    allOpReps.length = 12 ∧ ¬ allOpReps.length = 14 := by
  refine ⟨by decide, by decide, by decide⟩

/-- C7 amended: for all twelve operations, a peer reply with the expected
success variant yields the typed success result with no error (the peer
identity list for list identities, the peer signature for sign, unit for
each mutating operation, and no payload for extension answered with bare
Success); each operation is one of the twelve enumerated. -/
theorem success_reply_typed_result (op : OpCall) (ids : List Identity) (sg : Signature) :
    (runOp op (mkChannel [] [ReadEvent.response (successResp op ids sg)])).1 =
      Except.ok (successResult op ids sg) ∧
    op.tag < 12 ∧ (allOpReps.map OpCall.tag).contains op.tag = true := by
  cases op <;>
    exact ⟨rfl, by simp only [OpCall.tag]; decide, by simp only [OpCall.tag]; decide⟩

/-- C8: every operation routes through the shared handle primitive, so a
call on a channel whose sends succeed writes exactly its one request and
consumes exactly one response event, or, at end-of-stream, consumes nothing
further and fails with an error. -/
theorem one_request_one_response (op : OpCall) (c : Channel) (hs : c.sendScript = []) :
    (runOp op c).2 = (handle op.request c).2 ∧
    (runOp op c).2.written = c.written ++ [op.request] ∧
    ((∃ ev rest, c.readScript = ev :: rest ∧ (runOp op c).2.readScript = rest) ∨
      (c.readScript = [] ∧ (runOp op c).2.readScript = [] ∧
        ∃ e, (runOp op c).1 = Except.error e)) := by
  obtain ⟨ss, rs, w⟩ := c
  replace hs : ss = [] := hs
  subst hs
  rcases rs with _ | ⟨ev, rest⟩
  · cases op <;> exact ⟨rfl, rfl, Or.inr ⟨rfl, rfl, ⟨_, rfl⟩⟩⟩
  · cases ev with
    | readFailure e => cases op <;> exact ⟨rfl, rfl, Or.inl ⟨_, rest, rfl, rfl⟩⟩
    | response r => cases r <;> cases op <;> exact ⟨rfl, rfl, Or.inl ⟨_, rest, rfl, rfl⟩⟩

/-- Witness for C8 at a list-identities call on a one-reply channel. -/
theorem one_request_one_response_witness :
    (mkChannel [] [ReadEvent.response Response.Success]).sendScript = [] ∧
    (runOp OpCall.requestIdentities
        (mkChannel [] [ReadEvent.response Response.Success])).2.written =
      (mkChannel [] [ReadEvent.response Response.Success]).written ++
        [OpCall.request OpCall.requestIdentities] :=
  ⟨rfl,
    (one_request_one_response OpCall.requestIdentities
      (mkChannel [] [ReadEvent.response Response.Success]) rfl).2.1⟩

/-- C10: when the send of the request fails, handle returns that error at
once and neither consumes a read event nor records the request as
written. -/
theorem send_failure_no_read (m : Request) (c : Channel) (e : ProtoError)
    (rest : List (Option ProtoError)) (hs : c.sendScript = some e :: rest) :
    (handle m c).1 = Except.error (AgentError.Proto e) ∧
    (handle m c).2.readScript = c.readScript ∧
    (handle m c).2.written = c.written := by
  obtain ⟨ss, rs, w⟩ := c
  replace hs : ss = some e :: rest := hs
  subst hs
  exact ⟨rfl, rfl, rfl⟩

/-- Witness for C10 with a scripted write failure on a channel holding one
pending reply. -/
theorem send_failure_no_read_witness :
    (mkChannel [some (ProtoError.ioError "broken pipe")]
        [ReadEvent.response Response.Success]).sendScript =
      some (ProtoError.ioError "broken pipe") :: [] ∧
    (handle Request.RequestIdentities
        (mkChannel [some (ProtoError.ioError "broken pipe")]
          [ReadEvent.response Response.Success])).1 =
      Except.error (AgentError.Proto (ProtoError.ioError "broken pipe")) :=
  ⟨rfl,
    (send_failure_no_read Request.RequestIdentities
      (mkChannel [some (ProtoError.ioError "broken pipe")]
        [ReadEvent.response Response.Success])
      (ProtoError.ioError "broken pipe") [] rfl).1⟩

end SshAgentClient
